import Mathlib

/-!
Verification of the `EventCommand` command generator
(`lab/flamingo/tasks/manager_based/locomotion/position/mdp/event_command.py`).

The generator keeps, for a fixed batch of `N` parallel environments,

  * an internal per-environment timer `time_elapsed` (a length-`N` float vector),
  * the exposed command array `event_command` of shape `(N, 2)`, whose column 0
    is the active flag (a float restricted to 0.0 / 1.0) and whose column 1 is
    the exposed elapsed time.

Floats are modelled by exact rationals `ℚ`; the batch is modelled as functions
out of `Fin N`.  Each Python statement of `_resample_command` and
`_update_command` is embedded as its own definition so that the order of the
four statements of `_update_command` (accumulate, deactivate, sync the exposed
column, reset override) is visible in the Lean term.
-/

namespace EventCmd

/-- State of the `EventCommand` generator for a batch of `N` environments:
`time_elapsed` is the internal timer tensor `self.time_elapsed`;
`event_active` is column 0 of `self.event_command` (the active flag);
`event_elapsed` is column 1 of `self.event_command` (the exposed elapsed). -/
structure EventState (N : ℕ) where
  time_elapsed : Fin N → ℚ
  event_active : Fin N → ℚ
  event_elapsed : Fin N → ℚ

/-- Construction (`EventCommand.__init__`): `self.time_elapsed = torch.zeros(num_envs)`
and `self.event_command = torch.zeros(num_envs, 2)`. -/
def initState (N : ℕ) : EventState N :=
  { time_elapsed := fun _ => 0
    event_active := fun _ => 0
    event_elapsed := fun _ => 0 }

/-- The `command` property: the `(N, 2)` array `self.event_command`, read row by
row as the pair (active flag, exposed elapsed). -/
def command {N : ℕ} (s : EventState N) (i : Fin N) : ℚ × ℚ :=
  (s.event_active i, s.event_elapsed i)

/-- `EventCommand._resample_command(env_ids)`.  `currentTime` is the vector
`self.env.episode_length_buf * self.env.physics_dt * 4` (the environment's
episode-elapsed time, supplied by the external framework).  The method writes
`event_command[env_ids, 0] = torch.where(current_time[env_ids] >= 2.0, 1.0, 0.0)`
and `time_elapsed[env_ids] = 0`; it does not write column 1 of
`event_command`. -/
def resample {N : ℕ} (s : EventState N) (envIds : Finset (Fin N))
    (currentTime : Fin N → ℚ) : EventState N :=
  { time_elapsed := fun i => if i ∈ envIds then 0 else s.time_elapsed i
    event_active := fun i =>
      if i ∈ envIds then (if 2 ≤ currentTime i then 1 else 0) else s.event_active i
    event_elapsed := s.event_elapsed }

/-- First statement of `_update_command`:
`self.time_elapsed = torch.where(self.event_command[:,0]==1.0, self.time_elapsed + self._env.step_dt, 0.0)`. -/
def accumulate {N : ℕ} (dt : ℚ) (s : EventState N) : EventState N :=
  { s with time_elapsed := fun i =>
      if s.event_active i = 1 then s.time_elapsed i + dt else 0 }

/-- Second statement of `_update_command`:
`self.event_command[:, 0] = torch.logical_and(self.event_command[:,0]==1.0, self.time_elapsed <= self.event_during_time).float()`. -/
def deactivate {N : ℕ} (dur : ℚ) (s : EventState N) : EventState N :=
  { s with event_active := fun i =>
      if s.event_active i = 1 ∧ s.time_elapsed i ≤ dur then 1 else 0 }

/-- Third statement of `_update_command`: `self.event_command[:,1] = self.time_elapsed`. -/
def syncElapsed {N : ℕ} (s : EventState N) : EventState N :=
  { s with event_elapsed := s.time_elapsed }

/-- Final block of `_update_command`: for the ids in `self._env.reset_buf`,
`self.time_elapsed[reset_env_ids] = 0.0` and `self.event_command[reset_env_ids] = 0.0`
(both columns). -/
def resetOverride {N : ℕ} (resetIds : Finset (Fin N)) (s : EventState N) : EventState N :=
  { time_elapsed := fun i => if i ∈ resetIds then 0 else s.time_elapsed i
    event_active := fun i => if i ∈ resetIds then 0 else s.event_active i
    event_elapsed := fun i => if i ∈ resetIds then 0 else s.event_elapsed i }

/-- `EventCommand._update_command`, the four statements in source order.
`dt` is `self._env.step_dt`, `dur` is `self.event_during_time`, `resetIds` is
the nonzero set of `self._env.reset_buf`. -/
def update {N : ℕ} (s : EventState N) (dt dur : ℚ) (resetIds : Finset (Fin N)) :
    EventState N :=
  resetOverride resetIds (syncElapsed (deactivate dur (accumulate dt s)))

/-- A run of `_update_command` calls: each list entry supplies the step size and
the reset-buffer id set of one call; `dur` is the fixed `event_during_time`. -/
def runUpdates {N : ℕ} (dur : ℚ) (s : EventState N) :
    List (ℚ × Finset (Fin N)) → EventState N
  | [] => s
  | step :: rest => runUpdates dur (update s step.1 dur step.2) rest

/-- One externally driven call on the generator, either `_resample_command`
(with the episode clock it reads) or `_update_command` (with its step size and
reset-buffer id set). -/
inductive Op (N : ℕ) where
  | resampleOp (envIds : Finset (Fin N)) (currentTime : Fin N → ℚ)
  | updateOp (dt : ℚ) (resetIds : Finset (Fin N))

/-- Apply one call to the generator state. -/
def applyOp {N : ℕ} (dur : ℚ) (s : EventState N) : Op N → EventState N
  | .resampleOp e ct => resample s e ct
  | .updateOp dt r => update s dt dur r

/-- Run a sequence of resample/update calls from a given state. -/
def run {N : ℕ} (dur : ℚ) (s : EventState N) : List (Op N) → EventState N
  | [] => s
  | op :: ops => run dur (applyOp dur s op) ops

/-- Torch advanced-indexing semantics for an integer index into a size-`N`
dimension: an index `i` with `0 <= i < N` addresses row `i`; a negative index
with `-N <= i < 0` silently addresses row `N + i`; anything else raises
`IndexError` (modelled as `none`). -/
def resolveIndex (N : ℕ) (i : ℤ) : Option (Fin N) :=
  if h : 0 ≤ i ∧ i < (N : ℤ) then some ⟨i.toNat, by omega⟩
  else if h' : -(N : ℤ) ≤ i ∧ i < 0 then some ⟨(i + N).toNat, by omega⟩
  else none

/-- Resolve a whole `env_ids` sequence; `none` when some entry raises. -/
def resolveIndices (N : ℕ) : List ℤ → Option (List (Fin N))
  | [] => some []
  | i :: rest =>
    match resolveIndex N i, resolveIndices N rest with
    | some j, some js => some (j :: js)
    | _, _ => none

/-- `_resample_command` called with a raw integer id sequence, routed through
torch indexing: the tensor writes `event_command[env_ids, 0] = ...` and
`time_elapsed[env_ids] = 0` raise (return `none`) when some id is outside
`[-N, N)`, and otherwise act on the resolved rows. -/
def resampleInts {N : ℕ} (s : EventState N) (ids : List ℤ) (currentTime : Fin N → ℚ) :
    Option (EventState N) :=
  (resolveIndices N ids).map fun l => resample s l.toFinset currentTime

/-- Helper: row `i` of the result of one `_update_command` call depends only on
row `i` of the input state, the step size, and whether `i` is in the reset set. -/
theorem update_row_local {N : ℕ} (s t : EventState N) (dt dur : ℚ)
    (R S : Finset (Fin N)) (i : Fin N)
    (h1 : s.time_elapsed i = t.time_elapsed i)
    (h2 : s.event_active i = t.event_active i)
    (h3 : s.event_elapsed i = t.event_elapsed i)
    (hR : i ∈ R ↔ i ∈ S) :
    (update s dt dur R).time_elapsed i = (update t dt dur S).time_elapsed i
    ∧ (update s dt dur R).event_active i = (update t dt dur S).event_active i
    ∧ (update s dt dur R).event_elapsed i = (update t dt dur S).event_elapsed i := by
  by_cases h : i ∈ R
  · simp [update, resetOverride, h, hR.mp h]
  · have hS : i ∉ S := fun hh => h (hR.mpr hh)
    simp [update, resetOverride, syncElapsed, deactivate, accumulate, h, hS, h1, h2, h3]

/-- Helper: a 0/1 conditional takes no value besides 0 and 1. -/
theorem ite01 {c : Prop} [Decidable c] :
    (if c then (1:ℚ) else 0) = 0 ∨ (if c then (1:ℚ) else 0) = 1 := by
  by_cases h : c <;> simp [h]

/-- Helper: rows listed in the reset buffer leave `_update_command` fully zeroed. -/
theorem update_mem {N : ℕ} (s : EventState N) (dt dur : ℚ) (R : Finset (Fin N)) (i : Fin N)
    (h : i ∈ R) :
    (update s dt dur R).time_elapsed i = 0
    ∧ (update s dt dur R).event_active i = 0
    ∧ (update s dt dur R).event_elapsed i = 0 := by
  unfold update resetOverride
  exact ⟨if_pos h, if_pos h, if_pos h⟩

/-- Helper: rows not listed in the reset buffer leave `_update_command` with the
values produced by the accumulate and deactivate statements. -/
theorem update_not_mem {N : ℕ} (s : EventState N) (dt dur : ℚ) (R : Finset (Fin N)) (i : Fin N)
    (h : i ∉ R) :
    (update s dt dur R).time_elapsed i = (accumulate dt s).time_elapsed i
    ∧ (update s dt dur R).event_active i = (deactivate dur (accumulate dt s)).event_active i
    ∧ (update s dt dur R).event_elapsed i = (accumulate dt s).time_elapsed i := by
  unfold update resetOverride syncElapsed
  exact ⟨if_neg h, if_neg h, if_neg h⟩

/-- Helper: an id that is out of bounds for torch indexing makes the whole
index-sequence resolution raise. -/
theorem resolveIndices_eq_none_of_mem {N : ℕ} (ids : List ℤ) (j : ℤ) (hj : j ∈ ids)
    (hnone : resolveIndex N j = none) : resolveIndices N ids = none := by
  induction ids with
  | nil => cases hj
  | cons x xs ih =>
      rcases List.mem_cons.mp hj with rfl | hmem
      · cases hx : resolveIndices N xs <;> simp [resolveIndices, hnone, hx]
      · cases hx : resolveIndex N x <;> simp [resolveIndices, hx, ih hmem]

/-- Helper: both `_resample_command` and `_update_command` keep each active-flag
entry in the two-element set 0.0 / 1.0. -/
theorem applyOp_active01 {N : ℕ} (dur : ℚ) (s : EventState N) (op : Op N) (i : Fin N)
    (hs : s.event_active i = 0 ∨ s.event_active i = 1) :
    (applyOp dur s op).event_active i = 0 ∨ (applyOp dur s op).event_active i = 1 := by
  cases op with
  | resampleOp e ct =>
      show (resample s e ct).event_active i = 0 ∨ (resample s e ct).event_active i = 1
      by_cases h : i ∈ e
      · rw [show (resample s e ct).event_active i = (if 2 ≤ ct i then (1:ℚ) else 0) from by
          simp [resample, h]]
        exact ite01
      · rw [show (resample s e ct).event_active i = s.event_active i from by simp [resample, h]]
        exact hs
  | updateOp dt r =>
      show (update s dt dur r).event_active i = 0 ∨ (update s dt dur r).event_active i = 1
      by_cases h : i ∈ r
      · exact Or.inl (update_mem s dt dur r i h).2.1
      · rw [(update_not_mem s dt dur r i h).2.1]
        exact ite01

/-- C1 counterexample: the claimed invariant "active = 0.0 implies exposed
elapsed = 0.0 at every observable point" fails on a concrete reachable state:
activate environment 0 by a resample, then run two updates with dt = 0.6 and
event_duration = 1; the second update deactivates the environment because its
elapsed exceeded the duration, yet the exposed elapsed keeps the exceeded value
1.2 instead of being forced to 0 in the same step. -/
theorem C1_counterexample :
    let s1 := resample (initState 1) Finset.univ (fun _ => 2)
    let s2 := update s1 (3/5) 1 ∅
    let s3 := update s2 (3/5) 1 ∅
    s3.event_active 0 = 0 ∧ s3.event_elapsed 0 ≠ 0 := by
  simp only [update, resample, initState, accumulate, deactivate, syncElapsed, resetOverride,
    Finset.mem_univ, Finset.not_mem_empty, if_true, if_false, ite_true, ite_false]
  norm_num

/-- C1 amended: if an environment is inactive when `_update_command` is called
(its active flag is not 1.0), then after that call both its active flag and its
exposed elapsed are 0.0; the zeroing therefore happens one update after a
deactivation, not in the deactivating step itself. -/
theorem C1_theorem {N : ℕ} (s : EventState N) (dt dur : ℚ) (R : Finset (Fin N)) (i : Fin N)
    (h : s.event_active i ≠ 1) :
    (update s dt dur R).event_active i = 0 ∧ (update s dt dur R).event_elapsed i = 0 := by
  by_cases hR : i ∈ R <;>
    simp [update, resetOverride, syncElapsed, deactivate, accumulate, hR, h]

/-- C1 witness: the amended statement applied to the freshly constructed state of
a one-environment batch. -/
theorem C1_witness :
    (initState 1).event_active 0 ≠ 1
    ∧ ((update (initState 1) 1 1 ∅).event_active 0 = 0
        ∧ (update (initState 1) 1 1 ∅).event_elapsed 0 = 0) :=
  ⟨by norm_num [initState], C1_theorem (initState 1) 1 1 ∅ 0 (by norm_num [initState])⟩

/-- C2 counterexample: in the claimed scenario (one environment,
event_duration = 1.0, resample at episode time 2.0, then four updates with
dt = 0.3 and no resets) the fourth call does deactivate environment 0, but its
exposed elapsed after that call is not 0.0 as claimed. -/
theorem C2_counterexample :
    let s1 := resample (initState 1) Finset.univ (fun _ => 2)
    let s2 := update s1 (3/10) 1 ∅
    let s3 := update s2 (3/10) 1 ∅
    let s4 := update s3 (3/10) 1 ∅
    let s5 := update s4 (3/10) 1 ∅
    s5.event_active 0 = 0 ∧ s5.event_elapsed 0 ≠ 0 := by
  simp only [update, resample, initState, accumulate, deactivate, syncElapsed, resetOverride,
    Finset.mem_univ, Finset.not_mem_empty, if_true, if_false, ite_true, ite_false]
  norm_num

/-- C2 amended: in that scenario the resample activates environment 0 with timer
0, after three updates the state is still active with elapsed 0.9, the fourth
update deactivates it because 1.2 exceeds 1.0 but leaves elapsed exposed as
1.2, and only a fifth update brings the state to (0.0, 0.0). -/
theorem C2_theorem :
    ((resample (initState 1) Finset.univ (fun _ => 2)).event_active 0 = 1
      ∧ (resample (initState 1) Finset.univ (fun _ => 2)).time_elapsed 0 = 0)
    ∧ ((runUpdates 1 (resample (initState 1) Finset.univ (fun _ => 2))
          [((3/10 : ℚ), (∅ : Finset (Fin 1))), (3/10, ∅), (3/10, ∅)]).event_active 0 = 1
      ∧ (runUpdates 1 (resample (initState 1) Finset.univ (fun _ => 2))
          [((3/10 : ℚ), (∅ : Finset (Fin 1))), (3/10, ∅), (3/10, ∅)]).event_elapsed 0 = 9/10)
    ∧ ((runUpdates 1 (resample (initState 1) Finset.univ (fun _ => 2))
          [((3/10 : ℚ), (∅ : Finset (Fin 1))), (3/10, ∅), (3/10, ∅), (3/10, ∅)]).event_active 0 = 0
      ∧ (runUpdates 1 (resample (initState 1) Finset.univ (fun _ => 2))
          [((3/10 : ℚ), (∅ : Finset (Fin 1))), (3/10, ∅), (3/10, ∅), (3/10, ∅)]).event_elapsed 0 = 6/5
      ∧ (runUpdates 1 (resample (initState 1) Finset.univ (fun _ => 2))
          [((3/10 : ℚ), (∅ : Finset (Fin 1))), (3/10, ∅), (3/10, ∅), (3/10, ∅)]).time_elapsed 0 = 6/5)
    ∧ ((runUpdates 1 (resample (initState 1) Finset.univ (fun _ => 2))
          [((3/10 : ℚ), (∅ : Finset (Fin 1))), (3/10, ∅), (3/10, ∅), (3/10, ∅), (3/10, ∅)]).event_active 0 = 0
      ∧ (runUpdates 1 (resample (initState 1) Finset.univ (fun _ => 2))
          [((3/10 : ℚ), (∅ : Finset (Fin 1))), (3/10, ∅), (3/10, ∅), (3/10, ∅), (3/10, ∅)]).event_elapsed 0 = 0) := by
  simp only [runUpdates, update, resample, initState, accumulate, deactivate, syncElapsed,
    resetOverride, Finset.mem_univ, Finset.not_mem_empty, if_true, if_false, ite_true, ite_false]
  norm_num

/-- C3 counterexample: resample does not reset the exposed elapsed column.
Activate environment 0, update once with dt = 0.5 so the exposed elapsed is
0.5, then resample it with episode time 0 (below the 2.0 warm-up): the pair
returned by the command property is (0.0, 0.5), not the claimed (0.0, 0.0). -/
theorem C3_counterexample :
    let s1 := resample (initState 1) Finset.univ (fun _ => 2)
    let s2 := update s1 (1/2) 1 ∅
    let s3 := resample s2 Finset.univ (fun _ => 0)
    command s3 0 ≠ (0, 0) ∧ command s3 0 = (0, 1/2) := by
  simp only [command, update, resample, initState, accumulate, deactivate, syncElapsed,
    resetOverride, Finset.mem_univ, Finset.not_mem_empty, if_true, if_false, ite_true, ite_false]
  norm_num

/-- C3 amended: immediately after `_resample_command` on `env_ids`, each listed
environment has its active flag set to 1.0 exactly when its episode time is at
least 2.0 seconds (else 0.0) and its internal timer reset to 0, but the exposed
elapsed value returned by the command property is untouched: it keeps the value
it had before the resample until the next update writes it. -/
theorem C3_theorem {N : ℕ} (s : EventState N) (e : Finset (Fin N)) (ct : Fin N → ℚ)
    (i : Fin N) (h : i ∈ e) :
    command (resample s e ct) i = ((if 2 ≤ ct i then 1 else 0), s.event_elapsed i)
    ∧ (resample s e ct).time_elapsed i = 0 := by
  simp [command, resample, h]

/-- C3 witness: the amended statement applied to a one-environment batch
resampled at episode time exactly 2.0. -/
theorem C3_witness :
    (0 : Fin 1) ∈ (Finset.univ : Finset (Fin 1))
    ∧ (command (resample (initState 1) Finset.univ (fun _ => 2)) 0
          = ((if 2 ≤ (fun _ : Fin 1 => (2:ℚ)) 0 then 1 else 0), (initState 1).event_elapsed 0)
        ∧ (resample (initState 1) Finset.univ (fun _ => 2)).time_elapsed 0 = 0) :=
  ⟨Finset.mem_univ 0, C3_theorem (initState 1) Finset.univ (fun _ => 2) 0 (Finset.mem_univ 0)⟩

/-- C4: the accumulate and deactivate statements of `_update_command` (the part
of the call before the reset override) give every previously active environment
exactly dt more on its timer and force the timer of every inactive environment
to 0, and the environment stays active exactly when it was active and its
post-accumulation timer is at most event_duration (inclusive bound, evaluated
on the value computed after adding dt in the same call). -/
theorem C4_theorem {N : ℕ} (s : EventState N) (dt dur : ℚ) (i : Fin N) :
    ((deactivate dur (accumulate dt s)).time_elapsed i
        = if s.event_active i = 1 then s.time_elapsed i + dt else 0)
    ∧ ((deactivate dur (accumulate dt s)).event_active i = 1
        ↔ s.event_active i = 1 ∧ (accumulate dt s).time_elapsed i ≤ dur) := by
  refine ⟨rfl, ?_⟩
  by_cases h : s.event_active i = 1 ∧ (accumulate dt s).time_elapsed i ≤ dur <;>
    simp [deactivate, accumulate, h]

/-- C5: in every `_update_command` call, each environment in the reset buffer
ends the call with active flag 0.0, exposed elapsed 0.0 and timer 0 regardless
of its prior state, because the reset override is applied after the accumulate
and deactivation statements; each environment not in the reset buffer ends the
call with exactly the values of the accumulate/deactivate rule. -/
theorem C5_theorem {N : ℕ} (s : EventState N) (dt dur : ℚ) (R : Finset (Fin N)) (i : Fin N) :
    (i ∈ R → (update s dt dur R).event_active i = 0
            ∧ (update s dt dur R).event_elapsed i = 0
            ∧ (update s dt dur R).time_elapsed i = 0)
    ∧ (i ∉ R → (update s dt dur R).event_active i
                  = (deactivate dur (accumulate dt s)).event_active i
              ∧ (update s dt dur R).event_elapsed i
                  = (deactivate dur (accumulate dt s)).time_elapsed i
              ∧ (update s dt dur R).time_elapsed i
                  = (deactivate dur (accumulate dt s)).time_elapsed i) := by
  constructor <;> intro h <;>
    simp [update, resetOverride, syncElapsed, deactivate, accumulate, h]

/-- C5 witness: a two-environment batch with both environments active, updated
with environment 0 in the reset buffer: environment 0 is forced to zero while
environment 1 keeps the accumulate/deactivate values. -/
theorem C5_witness :
    ((update (resample (initState 2) Finset.univ (fun _ => 2)) (1/10) 1 {0}).event_active 0 = 0
      ∧ (update (resample (initState 2) Finset.univ (fun _ => 2)) (1/10) 1 {0}).event_elapsed 0 = 0
      ∧ (update (resample (initState 2) Finset.univ (fun _ => 2)) (1/10) 1 {0}).time_elapsed 0 = 0)
    ∧ ((update (resample (initState 2) Finset.univ (fun _ => 2)) (1/10) 1 {0}).event_active 1
          = (deactivate 1 (accumulate (1/10) (resample (initState 2) Finset.univ (fun _ => 2)))).event_active 1
        ∧ (update (resample (initState 2) Finset.univ (fun _ => 2)) (1/10) 1 {0}).event_elapsed 1
          = (deactivate 1 (accumulate (1/10) (resample (initState 2) Finset.univ (fun _ => 2)))).time_elapsed 1
        ∧ (update (resample (initState 2) Finset.univ (fun _ => 2)) (1/10) 1 {0}).time_elapsed 1
          = (deactivate 1 (accumulate (1/10) (resample (initState 2) Finset.univ (fun _ => 2)))).time_elapsed 1) :=
  ⟨(C5_theorem (resample (initState 2) Finset.univ (fun _ => 2)) (1/10) 1 {0} 0).1 (by decide),
   (C5_theorem (resample (initState 2) Finset.univ (fun _ => 2)) (1/10) 1 {0} 1).2 (by decide)⟩

/-- C6: `_resample_command` is idempotent — calling it twice in a row with the
same id set and the same episode clock, with no intervening update, leaves the
whole state equal to the state after the first call. -/
theorem C6_theorem {N : ℕ} (s : EventState N) (e : Finset (Fin N)) (ct : Fin N → ℚ) :
    resample (resample s e ct) e ct = resample s e ct := by
  simp only [resample, EventState.mk.injEq]
  refine ⟨funext fun i => ?_, funext fun i => ?_, trivial⟩ <;>
    by_cases h : i ∈ e <;> simp [h]

/-- C7: determinism and per-environment noninterference of `_update_command`
runs — if two initial states agree on row i and two step sequences supply the
same dt values and the same reset membership for i at every call, the whole
trajectories agree on row i; no other environment's state, id or processing
order can influence row i. -/
theorem C7_theorem {N : ℕ} (dur : ℚ) (steps steps2 : List (ℚ × Finset (Fin N)))
    (s t : EventState N) (i : Fin N)
    (hsteps : List.Forall₂ (fun p q => p.1 = q.1 ∧ (i ∈ p.2 ↔ i ∈ q.2)) steps steps2)
    (h1 : s.time_elapsed i = t.time_elapsed i)
    (h2 : s.event_active i = t.event_active i)
    (h3 : s.event_elapsed i = t.event_elapsed i) :
    (runUpdates dur s steps).time_elapsed i = (runUpdates dur t steps2).time_elapsed i
    ∧ (runUpdates dur s steps).event_active i = (runUpdates dur t steps2).event_active i
    ∧ (runUpdates dur s steps).event_elapsed i = (runUpdates dur t steps2).event_elapsed i := by
  induction hsteps generalizing s t with
  | nil => exact ⟨h1, h2, h3⟩
  | cons hpq hrest ih =>
      rename_i p q l1 l2
      obtain ⟨p1, p2⟩ := p
      obtain ⟨q1, q2⟩ := q
      obtain ⟨hdt, hmem⟩ := hpq
      dsimp only at hdt hmem
      subst hdt
      simp only [runUpdates]
      have step := update_row_local s t p1 dur p2 q2 i h1 h2 h3 hmem
      exact ih _ _ step.1 step.2.1 step.2.2

/-- C7 witness: the noninterference statement applied to a concrete
one-environment run of a single update step. -/
theorem C7_witness :
    ((runUpdates 1 (initState 1) [((1:ℚ), (∅ : Finset (Fin 1)))]).time_elapsed 0
        = (runUpdates 1 (initState 1) [((1:ℚ), (∅ : Finset (Fin 1)))]).time_elapsed 0)
    ∧ ((runUpdates 1 (initState 1) [((1:ℚ), (∅ : Finset (Fin 1)))]).event_active 0
        = (runUpdates 1 (initState 1) [((1:ℚ), (∅ : Finset (Fin 1)))]).event_active 0)
    ∧ ((runUpdates 1 (initState 1) [((1:ℚ), (∅ : Finset (Fin 1)))]).event_elapsed 0
        = (runUpdates 1 (initState 1) [((1:ℚ), (∅ : Finset (Fin 1)))]).event_elapsed 0) :=
  C7_theorem 1 [((1:ℚ), (∅ : Finset (Fin 1)))] [((1:ℚ), (∅ : Finset (Fin 1)))]
    (initState 1) (initState 1) 0
    (List.Forall₂.cons ⟨rfl, Iff.rfl⟩ List.Forall₂.nil) rfl rfl rfl

/-- C8 counterexample: the claim that every out-of-range id, negative ids
included, makes resample fail is false — the id -1 supplied to a batch of one
environment does not raise: torch indexing silently remaps it to row 0, whose
active flag is then set by the resample. -/
theorem C8_counterexample :
    (resampleInts (initState 1) [(-1 : ℤ)] (fun _ => 2)).isSome = true
    ∧ (resampleInts (initState 1) [(-1 : ℤ)] (fun _ => 2)).map
        (fun st => st.event_active 0) = some 1 := by
  constructor <;> decide

/-- C8 amended: a resample whose id sequence contains an id outside the torch
indexing range (below -N or at least N) raises before producing any state; ids
in the range from -N to -1, however, are silently remapped to the row N + id
rather than rejected, so fail-fast holds only outside the full torch range, not
for all ids outside the nominal range from 0 to N. -/
theorem C8_theorem {N : ℕ} (s : EventState N) (ids : List ℤ) (ct : Fin N → ℚ) (j : ℤ)
    (hj : j ∈ ids) (hout : j < -(N : ℤ) ∨ (N : ℤ) ≤ j) :
    resampleInts s ids ct = none := by
  have hnone : resolveIndex N j = none := by
    unfold resolveIndex
    rw [dif_neg (by omega), dif_neg (by omega)]
  unfold resampleInts
  rw [resolveIndices_eq_none_of_mem ids j hj hnone]
  rfl

/-- C8 witness: the amended statement applied to a one-environment batch and the
id 5, which is at least N = 1. -/
theorem C8_witness : resampleInts (initState 1) [(5 : ℤ)] (fun _ => 2) = none :=
  C8_theorem (initState 1) [(5 : ℤ)] (fun _ => 2) 5 (by decide) (by decide)

/-- C9: boolean-as-float invariant — starting from construction, after any
sequence of resample and update calls, every environment's active flag (column
0 of the command array) is exactly 0.0 or exactly 1.0. -/
theorem C9_theorem {N : ℕ} (dur : ℚ) (ops : List (Op N)) (i : Fin N) :
    (run dur (initState N) ops).event_active i = 0
    ∨ (run dur (initState N) ops).event_active i = 1 := by
  suffices h : ∀ (s : EventState N), (∀ j, s.event_active j = 0 ∨ s.event_active j = 1) →
      (run dur s ops).event_active i = 0 ∨ (run dur s ops).event_active i = 1 by
    exact h _ (fun _ => Or.inl rfl)
  induction ops with
  | nil => exact fun s hs => hs i
  | cons op ops ih =>
      exact fun s hs => ih (applyOp dur s op) (fun j => applyOp_active01 dur s op j (hs j))

/-- C10: after every `_update_command` call the two copies of the elapsed time
agree — column 1 of the command array equals the internal timer for every
environment, because the call writes the timer into the exposed column and the
reset override zeroes both together. -/
theorem C10_theorem {N : ℕ} (s : EventState N) (dt dur : ℚ) (R : Finset (Fin N)) (i : Fin N) :
    (command (update s dt dur R) i).2 = (update s dt dur R).time_elapsed i := by
  by_cases h : i ∈ R <;>
    simp [command, update, resetOverride, syncElapsed, deactivate, accumulate, h]

end EventCmd
